import Mathlib

/-!
Verification of the boat bow/anchor controller (winch, bow propeller,
automatic mode, remote control, emergency stop) against its specification.

The definitions below are a shallow embedding of the C++ sources:
GPIO relay outputs become boolean fields (`true` = pin driven LOW = relay
active, since all outputs are active-LOW), C++ `float` lengths become `ℚ`,
C++ `long` counters become `ℤ`, and the 32-bit unsigned `millis()`
timestamps become `ℕ` with subtraction performed modulo `2^32` exactly as
unsigned arithmetic does.  Each member function becomes a Lean function on
the corresponding state record.
-/

namespace BowCtrl

/-! ### Winch motor — src/src/hardware/ESP32Motor.cpp

`upLow`/`downLow` model the WINCH_UP / WINCH_DOWN pins being written LOW
(active).  `active_` and `current_direction_` are the bookkeeping fields. -/

inductive MDir where
  | stopped
  | up
  | down
deriving DecidableEq, Repr

structure Motor where
  upLow : Bool
  downLow : Bool
  active : Bool
  dir : MDir
deriving DecidableEq, Repr

def Motor.stop (m : Motor) : Motor :=
  { m with upLow := false, downLow := false, active := false, dir := .stopped }

def Motor.moveUp (m : Motor) : Motor :=
  { m with downLow := false, upLow := true, active := true, dir := .up }

def Motor.moveDown (m : Motor) : Motor :=
  { m with upLow := false, downLow := true, active := true, dir := .down }

def Motor.isActive (m : Motor) : Bool := m.active

def Motor.isMovingUp (m : Motor) : Bool := m.active && m.upLow

def Motor.isMovingDown (m : Motor) : Bool := m.active && m.downLow

/-- The winch motor is stopped: bookkeeping inactive and both relay pins
inactive (HIGH). -/
def Motor.stopped (m : Motor) : Prop :=
  m.active = false ∧ m.upLow = false ∧ m.downLow = false

instance (m : Motor) : Decidable m.stopped := by
  unfold Motor.stopped; infer_instance

/-! ### Anchor winch controller — src/src/winch_controller.cpp

`moveUp` consults the home sensor (`home_sensor_.isActive()`); the current
sensor reading is passed in as `homeActive`. -/

def AnchorWinchController.moveUp (homeActive : Bool) (m : Motor) : Motor :=
  if homeActive then m.stop else m.moveUp

def AnchorWinchController.moveDown (m : Motor) : Motor := m.moveDown

def AnchorWinchController.stop (m : Motor) : Motor := m.stop

/-! ### Bow propeller motor — src/src/hardware/ESP32BowPropellerMotor.cpp

State-level view used by the controllers and the emergency stop service. -/

inductive BDir where
  | stopped
  | port
  | starboard
deriving DecidableEq, Repr

structure BowMotor where
  portLow : Bool
  stbdLow : Bool
  active : Bool
  dir : BDir
deriving DecidableEq, Repr

def BowMotor.turnPort (b : BowMotor) : BowMotor :=
  { b with stbdLow := false, portLow := true, active := true, dir := .port }

def BowMotor.turnStarboard (b : BowMotor) : BowMotor :=
  { b with portLow := false, stbdLow := true, active := true, dir := .starboard }

def BowMotor.stop (b : BowMotor) : BowMotor :=
  { b with portLow := false, stbdLow := false, active := false, dir := .stopped }

/-- Both bow relays inactive and the bookkeeping flag cleared. -/
def BowMotor.stopped (b : BowMotor) : Prop :=
  b.active = false ∧ b.portLow = false ∧ b.stbdLow = false

instance (b : BowMotor) : Decidable b.stopped := by
  unfold BowMotor.stopped; infer_instance

/-! ### Bow propeller pins, write-by-write — for the mutual-exclusion claim

Each `turnPort` / `turnStarboard` / `stop` body is a sequence of two
`digitalWrite` calls; we record that sequence verbatim so every
intermediate pin state is visible. `BowWrite.port b` writes the PORT pin,
with `b = true` meaning LOW (relay active). -/

structure BowPins where
  portLow : Bool
  stbdLow : Bool
deriving DecidableEq, Repr

inductive BowWrite where
  | port (low : Bool)
  | stbd (low : Bool)
deriving DecidableEq, Repr

def applyWrite (p : BowPins) : BowWrite → BowPins
  | .port low => { p with portLow := low }
  | .stbd low => { p with stbdLow := low }

inductive BowOp where
  | turnPort
  | turnStarboard
  | stop
deriving DecidableEq, Repr

/-- The exact `digitalWrite` sequence of each bow propeller operation, in
source order (opposite relay is deactivated first). -/
def writesOf : BowOp → List BowWrite
  | .turnPort => [.stbd false, .port true]
  | .turnStarboard => [.port false, .stbd true]
  | .stop => [.port false, .stbd false]

def writeRun (p : BowPins) : List BowWrite → BowPins
  | [] => p
  | w :: ws => writeRun (applyWrite p w) ws

/-- All states visited while performing a write list, the final state
excluded (it is the head of whatever follows). -/
def writeTrace (p : BowPins) : List BowWrite → List BowPins
  | [] => [p]
  | w :: ws => p :: writeTrace (applyWrite p w) ws

def bowOpRun (p : BowPins) (op : BowOp) : BowPins := writeRun p (writesOf op)

/-- Every pin state visited while running a sequence of bow propeller
operations, including all intra-operation intermediate states. -/
def bowTrace (p : BowPins) : List BowOp → List BowPins
  | [] => [p]
  | op :: rest => writeTrace p (writesOf op) ++ bowTrace (bowOpRun p op) rest

/-- Both relays simultaneously active (both pins LOW). -/
def bothActive (p : BowPins) : Prop := p.portLow = true ∧ p.stbdLow = true

instance (p : BowPins) : Decidable (bothActive p) := by
  unfold bothActive; infer_instance

/-! ### Automatic mode controller — src/src/automatic_mode_controller.cpp -/

structure AutomaticModeController where
  enabled : Bool
  targetLength : ℚ
  tolerance : ℚ
  targetReached : Bool
deriving DecidableEq, Repr

def AutomaticModeController.setEnabled (ac : AutomaticModeController) (e : Bool)
    (m : Motor) : AutomaticModeController × Motor :=
  ({ ac with enabled := e }, if e then m else AnchorWinchController.stop m)

def AutomaticModeController.setTargetLength (ac : AutomaticModeController)
    (meters : ℚ) : AutomaticModeController :=
  { ac with targetLength := meters }

def AutomaticModeController.consumeTargetReached (ac : AutomaticModeController) :
    Bool × AutomaticModeController :=
  (ac.targetReached, { ac with targetReached := false })

def AutomaticModeController.update (ac : AutomaticModeController)
    (homeActive : Bool) (m : Motor) (currentLength : ℚ) :
    AutomaticModeController × Motor :=
  if ac.enabled = false ∨ ac.targetLength < 0 then (ac, m)
  else
    let error := currentLength - ac.targetLength
    if ac.targetLength = 0 then
      if homeActive then (ac, m)
      else if m.isMovingUp = false then
        (ac, AnchorWinchController.moveUp homeActive m)
      else (ac, m)
    else if |error| ≤ ac.tolerance then
      ({ ac with enabled := false, targetReached := true },
        if m.isActive then AnchorWinchController.stop m else m)
    else if error < 0 then
      if m.isMovingDown = false then (ac, AnchorWinchController.moveDown m) else (ac, m)
    else
      if m.isMovingUp = false then (ac, AnchorWinchController.moveUp homeActive m)
      else (ac, m)

/-! ### State manager pulse operations — src/include/services/StateManager.h -/

inductive PulseOp where
  | incrementPulse
  | decrementPulse
  | setPulseCount (count : ℤ)
deriving DecidableEq, Repr

def applyPulse (n : ℤ) : PulseOp → ℤ
  | .incrementPulse => n + 1
  | .decrementPulse => if n - 1 < 0 then 0 else n - 1
  | .setPulseCount count => count

def runPulse (n : ℤ) : List PulseOp → ℤ
  | [] => n
  | op :: rest => runPulse (applyPulse n op) rest

/-! ### Pulse counter service — src/src/services/PulseCounterService.cpp

`PCState` gathers the state the service touches: the relevant
`StateManager` fields, the winch motor, and the home sensor's edge-tracking
flag (`was_home_` of the underlying sensor, via `HomeSensor`).
`isHome` is the sensor reading sampled at this tick. -/

structure PCState where
  pulseCount : ℤ
  metersPerPulse : ℚ
  rodeLength : ℚ
  smAutoModeEnabled : Bool
  smAutoModeTarget : ℚ
  winch : Motor
  wasHome : Bool
deriving DecidableEq, Repr

def pcsUpdate (st : PCState) (isHome : Bool) : PCState :=
  let st :=
    if isHome then
      -- anchor at home: stop an upward-moving winch
      let st :=
        if st.winch.isMovingUp then { st with winch := AnchorWinchController.stop st.winch }
        else st
      -- justArrived(): edge detection mutates the sensor's previous state
      let st :=
        if st.wasHome = false then { st with pulseCount := 0, wasHome := isHome }
        else { st with wasHome := isHome }
      -- auto-home completion: disable auto mode when its target is exactly 0.0
      if st.smAutoModeEnabled = true ∧ st.smAutoModeTarget = 0 then
        { st with smAutoModeEnabled := false }
      else st
    else
      -- justLeft(): keep edge tracking accurate when not at home
      { st with wasHome := isHome }
  { st with rodeLength := (st.pulseCount : ℚ) * st.metersPerPulse }

/-! ### 32-bit unsigned time arithmetic

`millis()` returns a 32-bit unsigned value; `a - b` on `unsigned long`
is subtraction modulo `2^32`. -/

def M32 : ℕ := 4294967296

def wsub (a b : ℕ) : ℕ := (a + (M32 - b % M32)) % M32

/-! ### Whole-system state

`Sys` combines the `StateManager` fields, the two motors, the automatic
mode controller, the remote control's private fields
(src/src/remote_control.cpp) and the presence flags for the two nullable
controller pointers.  `homeActive` is the home sensor reading seen by
`AnchorWinchController::moveUp`. -/

structure Sys where
  -- StateManager
  estop : Bool
  smAutoModeEnabled : Bool
  smAutoModeTarget : ℚ
  manualControl : ℤ
  commandsAllowed : Bool
  rodeLength : ℚ
  -- hardware
  winch : Motor
  bow : BowMotor
  homeActive : Bool
  -- automatic mode controller (nullable pointer modelled by acPresent)
  ac : AutomaticModeController
  acPresent : Bool
  -- bow propeller controller (nullable pointer)
  bowPresent : Bool
  -- remote control private state
  rcPrevButtonActive : Bool
  rcLastPressMs : ℕ
  rcPressStartMs : ℕ
  rcLongPressFired : Bool
  rcRemoteActive : Bool
deriving DecidableEq, Repr

/-! ### Emergency stop service — src/src/services/EmergencyStopService.cpp -/

def EmergencyStopService.setActive (s : Sys) (active : Bool) : Sys :=
  if active = s.estop then s
  else
    let s := { s with estop := active }
    if active then
      let s := { s with winch := AnchorWinchController.stop s.winch }
      let s := if s.bowPresent then { s with bow := s.bow.stop } else s
      { s with smAutoModeEnabled := false, manualControl := 0 }
    else s

/-! ### SignalK command bindings — src/src/services/SignalKService.cpp

Each listener lambda becomes a function on `Sys`; SignalK output objects
(`set_input` calls) have no modelled effect. -/

/-- Manual windlass control listener (`setupManualControlBindings`). -/
def skManualControl (s : Sys) (command : ℤ) : Sys :=
  if s.estop = true then s
  else if s.commandsAllowed = false then s
  else
    let s :=
      if s.acPresent then
        let (ac1, m1) := s.ac.setEnabled false s.winch
        { s with ac := ac1, winch := m1, smAutoModeEnabled := false }
      else s
    if command = 1 then { s with winch := AnchorWinchController.moveUp s.homeActive s.winch }
    else if command = -1 then { s with winch := AnchorWinchController.moveDown s.winch }
    else { s with winch := AnchorWinchController.stop s.winch }

/-- Automatic mode enable/disable listener (`setupAutoModeBindings`). -/
def skAutoModeCommand (s : Sys) (value : ℚ) : Sys :=
  if s.estop = true then s
  else if s.commandsAllowed = false then s
  else if s.acPresent = false then s
  else
    let enable : Bool := decide (value > 1/2)
    if enable ≠ s.ac.enabled then
      if enable then
        let (ac1, m1) := s.ac.setEnabled true s.winch
        let s := { s with ac := ac1, winch := m1, smAutoModeEnabled := true }
        if s.ac.targetLength ≥ 0 then
          let (ac2, m2) := s.ac.update s.homeActive s.winch s.rodeLength
          { s with ac := ac2, winch := m2 }
        else s
      else
        let (ac1, m1) := s.ac.setEnabled false s.winch
        { s with ac := ac1, winch := m1, smAutoModeEnabled := false }
    else s

/-- Target rode length listener (`setupAutoModeBindings`). -/
def skTargetCommand (s : Sys) (target : ℚ) : Sys :=
  if s.estop = true then s
  else if s.commandsAllowed = false then s
  else if s.acPresent = false then s
  else if target ≥ 0 then
    let s := { s with ac := s.ac.setTargetLength target, smAutoModeTarget := target }
    if s.ac.enabled then
      let (ac1, m1) := s.ac.setEnabled false s.winch
      { s with ac := ac1, winch := m1, smAutoModeEnabled := false }
    else s
  else s

/-- Home command listener (`setupHomeCommandBindings`). -/
def skHomeCommand (s : Sys) (goHome : Bool) : Sys :=
  if s.estop = true then s
  else if s.commandsAllowed = false then s
  else if s.acPresent = false then s
  else if goHome then
    if s.winch.isActive = true ∧ s.ac.enabled = false then s
    else
      let s := { s with ac := s.ac.setTargetLength 0, smAutoModeTarget := 0 }
      if s.ac.enabled then
        let (ac1, m1) := s.ac.setEnabled false s.winch
        { s with ac := ac1, winch := m1, smAutoModeEnabled := false }
      else s
  else s

/-- Bow propeller command listener (`setupBowPropellerBindings`). -/
def skBowPropellerCommand (s : Sys) (command : ℤ) : Sys :=
  if s.bowPresent = false then s
  else if s.estop = true then s
  else if s.commandsAllowed = false then s
  else if command = 1 then { s with bow := s.bow.turnStarboard }
  else if command = -1 then { s with bow := s.bow.turnPort }
  else { s with bow := s.bow.stop }

/-! ### Remote control — src/src/remote_control.cpp

`processInputs` split into its gesture phase (double-press / long-press /
release bookkeeping, in source order) and its motion phase.  Inputs are
the four sampled buttons and `millis()`. -/

/-- Rising-edge block: double-press detection and press bookkeeping. -/
def rcRisingEdge (s : Sys) (anyButtonActive : Bool) (nowMs : ℕ) : Sys :=
  if anyButtonActive = true ∧ s.rcPrevButtonActive = false then
    let s :=
      if 0 < s.rcLastPressMs ∧ wsub nowMs s.rcLastPressMs ≤ 800 then
        { s with estop := true }
      else s
    { s with rcLastPressMs := nowMs, rcPressStartMs := nowMs, rcLongPressFired := false }
  else s

/-- Long-press block: clear emergency stop after a 2000ms hold. -/
def rcLongPress (s : Sys) (anyButtonActive : Bool) (nowMs : ℕ) : Sys :=
  if anyButtonActive = true ∧ s.estop = true ∧ s.rcLongPressFired = false ∧
      0 < s.rcPressStartMs ∧ 2000 ≤ wsub nowMs s.rcPressStartMs then
    { s with estop := false, rcLongPressFired := true }
  else s

/-- Release block: reset press bookkeeping when all buttons are released. -/
def rcRelease (s : Sys) (anyButtonActive : Bool) : Sys :=
  if anyButtonActive = false ∧ s.rcPrevButtonActive = true then
    { s with rcPressStartMs := 0, rcLongPressFired := false }
  else s

def rcGesture (s : Sys) (anyButtonActive : Bool) (nowMs : ℕ) : Sys :=
  let s := rcRisingEdge s anyButtonActive nowMs
  let s := rcLongPress s anyButtonActive nowMs
  let s := rcRelease s anyButtonActive
  { s with rcPrevButtonActive := anyButtonActive }

/-- Motion phase: emergency-stop gating, auto-mode override and the
deadman-switch winch drive.  Returns the tick's boolean result. -/
def rcMotion (s : Sys) (upPressed downPressed : Bool) : Sys × Bool :=
  if s.estop = true then
    if s.rcRemoteActive = true then
      ({ s with winch := AnchorWinchController.stop s.winch, rcRemoteActive := false }, false)
    else (s, false)
  else
    let s :=
      if (upPressed || downPressed) = true ∧ s.acPresent = true ∧ s.ac.enabled = true then
        let (ac1, m1) := s.ac.setEnabled false s.winch
        { s with ac := ac1, winch := m1, smAutoModeEnabled := false }
      else s
    if upPressed then
      ({ s with winch := AnchorWinchController.moveUp s.homeActive s.winch,
                rcRemoteActive := true }, true)
    else if downPressed then
      ({ s with winch := AnchorWinchController.moveDown s.winch, rcRemoteActive := true }, true)
    else if s.rcRemoteActive then
      ({ s with winch := AnchorWinchController.stop s.winch, rcRemoteActive := false }, true)
    else (s, false)

def processInputs (s : Sys) (upPressed downPressed func3Pressed func4Pressed : Bool)
    (nowMs : ℕ) : Sys × Bool :=
  let anyButtonActive := upPressed || downPressed || func3Pressed || func4Pressed
  rcMotion (rcGesture s anyButtonActive nowMs) upPressed downPressed

/-! ### Command alphabet for trace properties -/

inductive Cmd where
  | remote (upPressed downPressed func3Pressed func4Pressed : Bool) (nowMs : ℕ)
  | manual (command : ℤ)
  | autoMode (value : ℚ)
  | targetCmd (target : ℚ)
  | homeCmd (goHome : Bool)
  | bowCmd (command : ℤ)
deriving Repr

def stepCmd (s : Sys) : Cmd → Sys
  | .remote u d f3 f4 now => (processInputs s u d f3 f4 now).1
  | .manual c => skManualControl s c
  | .autoMode v => skAutoModeCommand s v
  | .targetCmd t => skTargetCommand s t
  | .homeCmd b => skHomeCommand s b
  | .bowCmd c => skBowPropellerCommand s c

def runCmds (s : Sys) : List Cmd → Sys
  | [] => s
  | c :: rest => runCmds (stepCmd s c) rest

/-- Emergency stop remains active at every state along the trace
(initial and all successors, final state included). -/
def EstopTrace (s : Sys) : List Cmd → Prop
  | [] => s.estop = true
  | c :: rest => s.estop = true ∧ EstopTrace (stepCmd s c) rest

instance : ∀ (s : Sys) (l : List Cmd), Decidable (EstopTrace s l)
  | _, [] => by unfold EstopTrace; infer_instance
  | s, c :: rest =>
    have : Decidable (EstopTrace (stepCmd s c) rest) := instDecidableEstopTrace _ _
    by unfold EstopTrace; infer_instance

/-- Both motors inert: winch relays and bow relays all inactive. -/
def MotorsStopped (s : Sys) : Prop :=
  s.winch.stopped ∧ (s.bowPresent = true → s.bow.stopped)

instance (s : Sys) : Decidable (MotorsStopped s) := by
  unfold MotorsStopped; infer_instance

/-! ### Remote-control tick sequences (for the gesture claims) -/

structure RCIn where
  upPressed : Bool
  downPressed : Bool
  func3Pressed : Bool
  func4Pressed : Bool
  nowMs : ℕ
deriving DecidableEq, Repr

def RCIn.anyActive (i : RCIn) : Bool :=
  i.upPressed || i.downPressed || i.func3Pressed || i.func4Pressed

def rcTick (s : Sys) (i : RCIn) : Sys :=
  (processInputs s i.upPressed i.downPressed i.func3Pressed i.func4Pressed i.nowMs).1

def rcRun (s : Sys) : List RCIn → Sys
  | [] => s
  | i :: rest => rcRun (rcTick s i) rest

/-- Number of ticks in the run on which the emergency stop flag goes from
active to cleared (the long-press clear is the only such transition). -/
def clearCount (s : Sys) : List RCIn → ℕ
  | [] => 0
  | i :: rest =>
    (if s.estop = true ∧ (rcTick s i).estop = false then 1 else 0) + clearCount (rcTick s i) rest

/-- Invariant holding along a continuously held press that started at
`millis()` value `t0`: the combined-button flag is remembered as active
and either the emergency stop has already been cleared, or it is still
active with the long-press not yet fired and the press start stamped `t0`. -/
def HeldInv (t0 : ℕ) (s : Sys) : Prop :=
  s.rcPrevButtonActive = true ∧
    (s.estop = false ∨
      (s.estop = true ∧ s.rcLongPressFired = false ∧ s.rcPressStartMs = t0))

end BowCtrl

namespace BowCtrl

/-! ## Arithmetic helper lemmas -/

theorem wsub_eq_sub {a b : ℕ} (hba : b ≤ a) (ha : a < M32) : wsub a b = a - b := by
  have hb : b < M32 := lt_of_le_of_lt hba ha
  have hbm : b % M32 = b := Nat.mod_eq_of_lt hb
  unfold wsub
  rw [hbm]
  have h1 : a + (M32 - b) = (a - b) + 1 * M32 := by omega
  rw [h1, Nat.add_mul_mod_self_right, Nat.mod_eq_of_lt (by omega)]

theorem wsub_self (a : ℕ) : wsub a a = 0 := by
  unfold wsub
  have h1 : a % M32 ≤ a := Nat.mod_le a M32
  have h2 : a + (M32 - a % M32) = (a - a % M32) + M32 := by
    have : a % M32 < M32 := Nat.mod_lt _ (by norm_num [M32])
    omega
  rw [h2, Nat.add_mod_right]
  have h3 : a - a % M32 = M32 * (a / M32) := by
    have h4 := Nat.div_add_mod a M32
    omega
  rw [h3, Nat.mul_mod_right]

/-! ## Claim theorems -/

/-- Claim C3: a `moveUp()` call on the anchor winch controller while the
home sensor reports active forces `stop()` (the winch ends stopped); with
the home sensor inactive, `moveUp()` commands the motor up. -/
theorem C3_home_interlock (homeActive : Bool) (m : Motor) :
    (homeActive = true →
      AnchorWinchController.moveUp homeActive m = Motor.stop m ∧
      (AnchorWinchController.moveUp homeActive m).stopped) ∧
    (homeActive = false →
      AnchorWinchController.moveUp homeActive m = Motor.moveUp m ∧
      (AnchorWinchController.moveUp homeActive m).isMovingUp = true) := by
  constructor <;> intro h <;> subst h <;>
    simp [AnchorWinchController.moveUp, Motor.stop, Motor.stopped, Motor.moveUp,
      Motor.isMovingUp]

theorem C3_home_interlock_witness :
    (AnchorWinchController.moveUp true ⟨true, false, true, .up⟩).stopped ∧
    (AnchorWinchController.moveUp false ⟨false, false, false, .stopped⟩).isMovingUp = true :=
  ⟨((C3_home_interlock true ⟨true, false, true, .up⟩).1 rfl).2,
   ((C3_home_interlock false ⟨false, false, false, .stopped⟩).2 rfl).2⟩

/-- Claim C6: `setTargetLength` only writes the target field (enabled,
tolerance and the reached flag are untouched, and no winch command is
issued), and `update` is a complete no-op whenever the controller is
disabled or the target is negative. -/
theorem C6_arming_never_starts_motion (ac : AutomaticModeController) (t : ℚ)
    (homeActive : Bool) (m : Motor) (cur : ℚ) :
    ((ac.setTargetLength t).targetLength = t ∧
     (ac.setTargetLength t).enabled = ac.enabled ∧
     (ac.setTargetLength t).tolerance = ac.tolerance ∧
     (ac.setTargetLength t).targetReached = ac.targetReached) ∧
    (ac.enabled = false ∨ ac.targetLength < 0 →
      ac.update homeActive m cur = (ac, m)) := by
  refine ⟨⟨rfl, rfl, rfl, rfl⟩, fun h => ?_⟩
  unfold AutomaticModeController.update
  rw [if_pos h]

theorem C6_arming_never_starts_motion_witness :
    (AutomaticModeController.setTargetLength ⟨false, -1, 1/5, false⟩ 5).enabled = false ∧
    AutomaticModeController.update ⟨false, -1, 1/5, false⟩ false
      ⟨false, false, false, .stopped⟩ 3 = (⟨false, -1, 1/5, false⟩, ⟨false, false, false, .stopped⟩) :=
  ⟨(C6_arming_never_starts_motion ⟨false, -1, 1/5, false⟩ 5 false
      ⟨false, false, false, .stopped⟩ 3).1.2.1,
   (C6_arming_never_starts_motion ⟨false, -1, 1/5, false⟩ 5 false
      ⟨false, false, false, .stopped⟩ 3).2 (Or.inl rfl)⟩

/-- Claim C4: an `update` tick with the controller enabled, a positive
target and the current length within tolerance of it leaves the winch
inactive, disables the controller and latches the one-shot
`target_reached` flag; `consumeTargetReached` then returns `true` once and
`false` on a second consecutive call. -/
theorem C4_target_reached_oneshot (ac : AutomaticModeController) (homeActive : Bool)
    (m : Motor) (cur : ℚ) (hen : ac.enabled = true) (hpos : 0 < ac.targetLength)
    (htol : |cur - ac.targetLength| ≤ ac.tolerance) :
    ((ac.update homeActive m cur).2).active = false ∧
    ((ac.update homeActive m cur).1).enabled = false ∧
    ((ac.update homeActive m cur).1).targetReached = true ∧
    ((ac.update homeActive m cur).1).consumeTargetReached.1 = true ∧
    (((ac.update homeActive m cur).1).consumeTargetReached.2).consumeTargetReached.1 = false := by
  have h1 : ¬(ac.enabled = false ∨ ac.targetLength < 0) := by
    rintro (h | h)
    · rw [hen] at h; cases h
    · exact absurd h (not_lt.mpr hpos.le)
  have h2 : ¬ ac.targetLength = 0 := ne_of_gt hpos
  have hupd : ac.update homeActive m cur =
      ({ ac with enabled := false, targetReached := true },
        if m.isActive = true then AnchorWinchController.stop m else m) := by
    unfold AutomaticModeController.update
    simp only [if_neg h1, if_neg h2, if_pos htol]
  rw [hupd]
  refine ⟨?_, rfl, rfl, rfl, rfl⟩
  by_cases hm : m.active = true
  · simp [Motor.isActive, hm, AnchorWinchController.stop, Motor.stop]
  · rw [Bool.not_eq_true] at hm
    simp [Motor.isActive, hm]

theorem C4_target_reached_oneshot_witness :
    ((AutomaticModeController.update ⟨true, 10, 1/5, false⟩ false
        ⟨false, true, true, .down⟩ (49/5)).2).active = false ∧
    ((AutomaticModeController.update ⟨true, 10, 1/5, false⟩ false
        ⟨false, true, true, .down⟩ (49/5)).1).consumeTargetReached.1 = true := by
  have h := C4_target_reached_oneshot ⟨true, 10, 1/5, false⟩ false
    ⟨false, true, true, .down⟩ (49/5) rfl (by norm_num) (by norm_num [abs_le])
  exact ⟨h.1, h.2.2.2.1⟩

/-- Claim C5: the tolerance comparison is inclusive.  With target 10.0 and
tolerance 0.2, updates at 9.8 and 10.2 latch the reached flag while
updates at 9.79 and 10.21 do not. -/
theorem C5_tolerance_boundary_inclusive :
    ((AutomaticModeController.update ⟨true, 10, 1/5, false⟩ false
        ⟨false, false, false, .stopped⟩ (49/5)).1).targetReached = true ∧
    ((AutomaticModeController.update ⟨true, 10, 1/5, false⟩ false
        ⟨false, false, false, .stopped⟩ (51/5)).1).targetReached = true ∧
    ((AutomaticModeController.update ⟨true, 10, 1/5, false⟩ false
        ⟨false, false, false, .stopped⟩ (979/100)).1).targetReached = false ∧
    ((AutomaticModeController.update ⟨true, 10, 1/5, false⟩ false
        ⟨false, false, false, .stopped⟩ (1021/100)).1).targetReached = false := by
  norm_num [AutomaticModeController.update, abs_le, AnchorWinchController.moveUp,
    AnchorWinchController.moveDown, Motor.isMovingUp, Motor.isMovingDown, Motor.moveUp,
    Motor.moveDown]

/-- Claim C8 as stated is false: `setPulseCount` stores its argument
without clamping, so a single `setPulseCount(-1)` drives the count
negative. -/
theorem C8_counterexample :
    runPulse 0 [PulseOp.setPulseCount (-1)] = -1 ∧
    runPulse 0 [PulseOp.setPulseCount (-1)] < 0 := by
  constructor <;> decide

/-- Nonnegativity of the pulse count is preserved by any sequence of
state-manager pulse operations whose `setPulseCount` arguments are all
nonnegative. -/
theorem runPulse_nonneg (ops : List PulseOp) :
    ∀ start : ℤ, 0 ≤ start → (∀ c : ℤ, PulseOp.setPulseCount c ∈ ops → 0 ≤ c) →
    0 ≤ runPulse start ops := by
  induction ops with
  | nil => intro start h0 _; exact h0
  | cons op rest ih =>
    intro start h0 hset
    have hset' : ∀ c : ℤ, PulseOp.setPulseCount c ∈ rest → 0 ≤ c :=
      fun c hc => hset c (List.mem_cons_of_mem _ hc)
    show 0 ≤ runPulse (applyPulse start op) rest
    refine ih _ ?_ hset'
    cases op with
    | incrementPulse => simp only [applyPulse]; omega
    | decrementPulse => simp only [applyPulse]; split <;> omega
    | setPulseCount c =>
      simpa [applyPulse] using hset c (List.mem_cons_self _ _)

/-- Claim C8, amended: the pulse count is never negative under any
sequence of `incrementPulse`, `decrementPulse` and `setPulseCount` with
nonnegative arguments (decrements clamp at 0); in particular ten
decrements from 2 yield 0. -/
theorem C8_pulse_floor (start : ℤ) (ops : List PulseOp) (h0 : 0 ≤ start)
    (hset : ∀ c : ℤ, PulseOp.setPulseCount c ∈ ops → 0 ≤ c) :
    0 ≤ runPulse start ops ∧
    runPulse 2 (List.replicate 10 PulseOp.decrementPulse) = 0 :=
  ⟨runPulse_nonneg ops start h0 hset, by decide⟩

theorem C8_pulse_floor_witness :
    0 ≤ runPulse 2 (List.replicate 10 PulseOp.decrementPulse) ∧
    runPulse 2 (List.replicate 10 PulseOp.decrementPulse) = 0 := by
  have h := C8_pulse_floor 2 (List.replicate 10 PulseOp.decrementPulse) (by decide)
    (by intro c hc; simp [List.mem_replicate] at hc)
  exact ⟨h.1, h.2⟩

/-- Bow propeller micro-step safety: starting from a state where the two
relays are not both active, each single operation keeps every intermediate
pin state (after each individual `digitalWrite`) free of simultaneous
activation, and ends in such a state as well. -/
theorem bow_op_preserves (p : BowPins) (op : BowOp) (hp : ¬ bothActive p) :
    (∀ q ∈ writeTrace p (writesOf op), ¬ bothActive q) ∧ ¬ bothActive (bowOpRun p op) := by
  cases op <;> rcases p with ⟨pl, sl⟩ <;> cases pl <;> cases sl <;>
    simp_all [bothActive, writeTrace, writesOf, applyWrite, bowOpRun, writeRun]

/-- Claim C2: for every sequence of `turnPort`/`turnStarboard`/`stop`
operations on the bow propeller, at no point — including between the two
`digitalWrite` calls inside one operation — are both relays active, given
that they do not start out both active. -/
theorem C2_mutual_exclusion (p : BowPins) (ops : List BowOp) (hp : ¬ bothActive p) :
    ∀ q ∈ bowTrace p ops, ¬ bothActive q := by
  induction ops generalizing p with
  | nil =>
    intro q hq
    simp only [bowTrace, List.mem_singleton] at hq
    subst hq; exact hp
  | cons op rest ih =>
    intro q hq
    simp only [bowTrace, List.mem_append] at hq
    rcases hq with h | h
    · exact (bow_op_preserves p op hp).1 q h
    · exact ih (bowOpRun p op) ((bow_op_preserves p op hp).2) q h

theorem C2_mutual_exclusion_witness : ¬ bothActive ⟨true, false⟩ :=
  C2_mutual_exclusion ⟨false, false⟩ [BowOp.turnPort, BowOp.turnStarboard] (by decide)
    ⟨true, false⟩ (by decide)

/-- Claim C7: on a pulse-counter-service tick with the home sensor active,
an upward-moving winch is stopped, the pulse count is reset on the first
active tick since the sensor was last inactive, and auto mode is disabled
when enabled with target exactly 0.0; on every tick the rode length is
recomputed as pulse count times meters-per-pulse. -/
theorem C7_pulse_counter_tick (st : PCState) (isHome : Bool) :
    (isHome = true → st.winch.isMovingUp = true → (pcsUpdate st isHome).winch.stopped) ∧
    (isHome = true → st.wasHome = false → (pcsUpdate st isHome).pulseCount = 0) ∧
    (isHome = true → st.smAutoModeEnabled = true → st.smAutoModeTarget = 0 →
      (pcsUpdate st isHome).smAutoModeEnabled = false) ∧
    (pcsUpdate st isHome).rodeLength =
      ((pcsUpdate st isHome).pulseCount : ℚ) * st.metersPerPulse := by
  obtain ⟨pc, mpp, rode, autoEn, autoTgt, winch, wasHome⟩ := st
  obtain ⟨uL, dL, act, mdir⟩ := winch
  cases isHome <;> cases wasHome <;> cases autoEn <;> cases act <;> cases uL <;>
    by_cases htgt : autoTgt = 0 <;>
    simp_all [pcsUpdate, Motor.stopped, Motor.isMovingUp, AnchorWinchController.stop,
      Motor.stop]

theorem C7_pulse_counter_tick_witness :
    (pcsUpdate ⟨5, 1/100, 0, true, 0, ⟨true, false, true, .up⟩, false⟩ true).winch.stopped ∧
    (pcsUpdate ⟨5, 1/100, 0, true, 0, ⟨true, false, true, .up⟩, false⟩ true).pulseCount = 0 ∧
    (pcsUpdate ⟨5, 1/100, 0, true, 0, ⟨true, false, true, .up⟩, false⟩
      true).smAutoModeEnabled = false := by
  have h := C7_pulse_counter_tick ⟨5, 1/100, 0, true, 0, ⟨true, false, true, .up⟩, false⟩ true
  exact ⟨h.1 rfl rfl, h.2.1 rfl rfl, h.2.2.1 rfl rfl rfl⟩

/-- The rising-edge block only touches the emergency-stop flag and the
press bookkeeping fields. -/
theorem rcRisingEdge_frame (s : Sys) (a : Bool) (n : ℕ) :
    (rcRisingEdge s a n).winch = s.winch ∧ (rcRisingEdge s a n).bow = s.bow ∧
    (rcRisingEdge s a n).bowPresent = s.bowPresent ∧
    (rcRisingEdge s a n).rcRemoteActive = s.rcRemoteActive ∧
    (rcRisingEdge s a n).acPresent = s.acPresent ∧ (rcRisingEdge s a n).ac = s.ac ∧
    (rcRisingEdge s a n).homeActive = s.homeActive ∧
    (rcRisingEdge s a n).rcPrevButtonActive = s.rcPrevButtonActive := by
  unfold rcRisingEdge
  split_ifs <;> simp

/-- The long-press block only touches the emergency-stop flag and the
fired flag. -/
theorem rcLongPress_frame (s : Sys) (a : Bool) (n : ℕ) :
    (rcLongPress s a n).winch = s.winch ∧ (rcLongPress s a n).bow = s.bow ∧
    (rcLongPress s a n).bowPresent = s.bowPresent ∧
    (rcLongPress s a n).rcRemoteActive = s.rcRemoteActive ∧
    (rcLongPress s a n).acPresent = s.acPresent ∧ (rcLongPress s a n).ac = s.ac ∧
    (rcLongPress s a n).homeActive = s.homeActive ∧
    (rcLongPress s a n).rcPrevButtonActive = s.rcPrevButtonActive := by
  unfold rcLongPress
  split_ifs <;> simp

/-- The release block only touches the press bookkeeping fields. -/
theorem rcRelease_frame (s : Sys) (a : Bool) :
    (rcRelease s a).winch = s.winch ∧ (rcRelease s a).bow = s.bow ∧
    (rcRelease s a).bowPresent = s.bowPresent ∧
    (rcRelease s a).rcRemoteActive = s.rcRemoteActive ∧
    (rcRelease s a).acPresent = s.acPresent ∧ (rcRelease s a).ac = s.ac ∧
    (rcRelease s a).homeActive = s.homeActive ∧
    (rcRelease s a).rcPrevButtonActive = s.rcPrevButtonActive ∧
    (rcRelease s a).estop = s.estop := by
  unfold rcRelease
  split_ifs <;> simp

/-- The remote control's gesture phase never touches the motors, the
controllers or the deadman flag, and records the sampled combined-button
state. -/
theorem rcGesture_frame (s : Sys) (a : Bool) (n : ℕ) :
    (rcGesture s a n).winch = s.winch ∧ (rcGesture s a n).bow = s.bow ∧
    (rcGesture s a n).bowPresent = s.bowPresent ∧
    (rcGesture s a n).rcRemoteActive = s.rcRemoteActive ∧
    (rcGesture s a n).acPresent = s.acPresent ∧ (rcGesture s a n).ac = s.ac ∧
    (rcGesture s a n).homeActive = s.homeActive ∧
    (rcGesture s a n).rcPrevButtonActive = a := by
  obtain ⟨h1w, h1b, h1bp, h1ra, h1ap, h1ac, h1h, h1p⟩ := rcRisingEdge_frame s a n
  obtain ⟨h2w, h2b, h2bp, h2ra, h2ap, h2ac, h2h, h2p⟩ :=
    rcLongPress_frame (rcRisingEdge s a n) a n
  obtain ⟨h3w, h3b, h3bp, h3ra, h3ap, h3ac, h3h, h3p, h3e⟩ :=
    rcRelease_frame (rcLongPress (rcRisingEdge s a n) a n) a
  unfold rcGesture
  refine ⟨?_, ?_, ?_, ?_, ?_, ?_, ?_, rfl⟩
  · show (rcRelease (rcLongPress (rcRisingEdge s a n) a n) a).winch = s.winch
    rw [h3w, h2w, h1w]
  · show (rcRelease (rcLongPress (rcRisingEdge s a n) a n) a).bow = s.bow
    rw [h3b, h2b, h1b]
  · show (rcRelease (rcLongPress (rcRisingEdge s a n) a n) a).bowPresent = s.bowPresent
    rw [h3bp, h2bp, h1bp]
  · show (rcRelease (rcLongPress (rcRisingEdge s a n) a n) a).rcRemoteActive = s.rcRemoteActive
    rw [h3ra, h2ra, h1ra]
  · show (rcRelease (rcLongPress (rcRisingEdge s a n) a n) a).acPresent = s.acPresent
    rw [h3ap, h2ap, h1ap]
  · show (rcRelease (rcLongPress (rcRisingEdge s a n) a n) a).ac = s.ac
    rw [h3ac, h2ac, h1ac]
  · show (rcRelease (rcLongPress (rcRisingEdge s a n) a n) a).homeActive = s.homeActive
    rw [h3h, h2h, h1h]

/-- The remote control's motion phase never changes the emergency-stop
flag. -/
theorem rcMotion_estop_frame (s : Sys) (u d : Bool) :
    ((rcMotion s u d).1).estop = s.estop := by
  unfold rcMotion
  simp only [AutomaticModeController.setEnabled]
  split_ifs <;> simp

/-- With emergency stop active across the motion phase, a stopped winch
stays stopped and the bow propeller is untouched. -/
theorem rcMotion_estop_true (s : Sys) (u d : Bool) (h : s.estop = true)
    (hw : s.winch.stopped) :
    ((rcMotion s u d).1).winch.stopped ∧ ((rcMotion s u d).1).bow = s.bow ∧
    ((rcMotion s u d).1).bowPresent = s.bowPresent := by
  unfold rcMotion
  rw [if_pos h]
  split_ifs <;> simp_all [AnchorWinchController.stop, Motor.stop, Motor.stopped]

/-- Emergency stop is active at the first state of any trace satisfying
`EstopTrace`. -/
theorem EstopTrace_head (s : Sys) (l : List Cmd) (h : EstopTrace s l) : s.estop = true := by
  cases l with
  | nil => exact h
  | cons c rest => exact h.1

/-- One command step preserves "all motors stopped" while the emergency
stop stays active across it. -/
theorem stepCmd_estop_preserved (s : Sys) (c : Cmd) (hs : s.estop = true)
    (hw : s.winch.stopped) (hb : s.bowPresent = true → s.bow.stopped)
    (h' : (stepCmd s c).estop = true) :
    (stepCmd s c).winch.stopped ∧
    ((stepCmd s c).bowPresent = true → (stepCmd s c).bow.stopped) := by
  cases c with
  | remote u d f3 f4 now =>
    have hg := rcGesture_frame s (u || d || f3 || f4) now
    have hge : (rcGesture s (u || d || f3 || f4) now).estop = true := by
      rw [← rcMotion_estop_frame (rcGesture s (u || d || f3 || f4) now) u d]
      exact h'
    have hres := rcMotion_estop_true (rcGesture s (u || d || f3 || f4) now) u d hge
      (by rw [hg.1]; exact hw)
    refine ⟨hres.1, fun hbp => ?_⟩
    have hbow : (stepCmd s (.remote u d f3 f4 now)).bow = s.bow := by
      show ((rcMotion (rcGesture s (u || d || f3 || f4) now) u d).1).bow = s.bow
      rw [hres.2.1, hg.2.1]
    have hbp' : s.bowPresent = true := by
      have : (stepCmd s (.remote u d f3 f4 now)).bowPresent = s.bowPresent := by
        show ((rcMotion (rcGesture s (u || d || f3 || f4) now) u d).1).bowPresent = s.bowPresent
        rw [hres.2.2, hg.2.2.1]
      rw [← this]; exact hbp
    rw [hbow]; exact hb hbp'
  | manual cmd =>
    have : stepCmd s (.manual cmd) = s := by simp [stepCmd, skManualControl, hs]
    rw [this]; exact ⟨hw, hb⟩
  | autoMode v =>
    have : stepCmd s (.autoMode v) = s := by simp [stepCmd, skAutoModeCommand, hs]
    rw [this]; exact ⟨hw, hb⟩
  | targetCmd t =>
    have : stepCmd s (.targetCmd t) = s := by simp [stepCmd, skTargetCommand, hs]
    rw [this]; exact ⟨hw, hb⟩
  | homeCmd b =>
    have : stepCmd s (.homeCmd b) = s := by simp [stepCmd, skHomeCommand, hs]
    rw [this]; exact ⟨hw, hb⟩
  | bowCmd cmd =>
    have : stepCmd s (.bowCmd cmd) = s := by
      simp [stepCmd, skBowPropellerCommand, hs]
    rw [this]; exact ⟨hw, hb⟩

/-- Claim C1: emergency-stop dominance.  Activating the emergency stop
service stops the winch, stops the bow propeller when present, disables
automatic mode, clears the manual command to stop and raises the flag;
and for every sequence of remote ticks and externally sourced
manual/automatic/bow commands along which the emergency stop stays
active, motors that start stopped stay stopped. -/
theorem C1_emergency_stop_dominance :
    (∀ s : Sys, s.estop = false →
      (EmergencyStopService.setActive s true).estop = true ∧
      (EmergencyStopService.setActive s true).winch.stopped ∧
      (s.bowPresent = true → (EmergencyStopService.setActive s true).bow.stopped) ∧
      (EmergencyStopService.setActive s true).smAutoModeEnabled = false ∧
      (EmergencyStopService.setActive s true).manualControl = 0) ∧
    (∀ (s : Sys) (cmds : List Cmd), MotorsStopped s → EstopTrace s cmds →
      MotorsStopped (runCmds s cmds)) := by
  constructor
  · intro s hs
    unfold EmergencyStopService.setActive
    rw [if_neg (by simp [hs])]
    by_cases hbp : s.bowPresent = true <;>
      simp_all [AnchorWinchController.stop, Motor.stop, Motor.stopped, BowMotor.stop,
        BowMotor.stopped]
  · intro s cmds
    induction cmds generalizing s with
    | nil => intro hm _; exact hm
    | cons c rest ih =>
      intro hm ht
      obtain ⟨hs, ht'⟩ := ht
      have h' : (stepCmd s c).estop = true := EstopTrace_head _ _ ht'
      have hstep := stepCmd_estop_preserved s c hs hm.1 hm.2 h'
      exact ih (stepCmd s c) ⟨hstep.1, hstep.2⟩ ht'

theorem C1_emergency_stop_dominance_witness :
    (EmergencyStopService.setActive
      ⟨false, true, 5, 1, true, 3, ⟨false, true, true, .down⟩, ⟨true, false, true, .port⟩,
        false, ⟨true, 5, 1/5, false⟩, true, true, false, 0, 0, false, false⟩
      true).winch.stopped ∧
    MotorsStopped (runCmds
      ⟨true, false, -1, 0, true, 0, ⟨false, false, false, .stopped⟩,
        ⟨false, false, false, .stopped⟩, false, ⟨false, -1, 1/5, false⟩, true, true,
        false, 0, 0, false, false⟩
      [Cmd.manual 1, Cmd.remote true false false false 100, Cmd.bowCmd 1,
        Cmd.autoMode 1, Cmd.homeCmd true, Cmd.targetCmd 3]) :=
  ⟨(C1_emergency_stop_dominance.1 _ rfl).2.1,
   C1_emergency_stop_dominance.2 _ _ (by decide) (by decide)⟩

/-! ## Remote-control gesture lemmas -/

/-- The motion phase never changes the emergency-stop flag, the gesture
bookkeeping fields, the home sensor reading or the controller-presence
flag. -/
theorem rcMotion_gesture_frame (s : Sys) (u d : Bool) :
    ((rcMotion s u d).1).estop = s.estop ∧
    ((rcMotion s u d).1).rcPrevButtonActive = s.rcPrevButtonActive ∧
    ((rcMotion s u d).1).rcLastPressMs = s.rcLastPressMs ∧
    ((rcMotion s u d).1).rcPressStartMs = s.rcPressStartMs ∧
    ((rcMotion s u d).1).rcLongPressFired = s.rcLongPressFired := by
  unfold rcMotion
  simp only [AutomaticModeController.setEnabled]
  split_ifs <;> simp

/-- The gesture fields of a full tick agree with the gesture phase's
output (the motion phase leaves them alone). -/
theorem rcTick_estop_fields (s : Sys) (i : RCIn) :
    (rcTick s i).estop = (rcGesture s i.anyActive i.nowMs).estop ∧
    (rcTick s i).rcPrevButtonActive = (rcGesture s i.anyActive i.nowMs).rcPrevButtonActive ∧
    (rcTick s i).rcLastPressMs = (rcGesture s i.anyActive i.nowMs).rcLastPressMs ∧
    (rcTick s i).rcPressStartMs = (rcGesture s i.anyActive i.nowMs).rcPressStartMs ∧
    (rcTick s i).rcLongPressFired = (rcGesture s i.anyActive i.nowMs).rcLongPressFired :=
  rcMotion_gesture_frame (rcGesture s i.anyActive i.nowMs) i.upPressed i.downPressed

/-- Gesture phase on a rising edge (some button active, none before):
press bookkeeping is stamped with `now`, the fired flag is reset, and the
emergency stop is raised exactly when the double-press window condition
holds; the long-press cannot fire on the same tick. -/
theorem rcGesture_rising (s : Sys) (a : Bool) (n : ℕ) (ha : a = true)
    (hprev : s.rcPrevButtonActive = false) :
    (rcGesture s a n).rcPrevButtonActive = a ∧
    (rcGesture s a n).rcLongPressFired = false ∧
    (rcGesture s a n).rcPressStartMs = n ∧
    (rcGesture s a n).estop =
      (if 0 < s.rcLastPressMs ∧ wsub n s.rcLastPressMs ≤ 800 then true else s.estop) := by
  by_cases hdp : 0 < s.rcLastPressMs ∧ wsub n s.rcLastPressMs ≤ 800 <;>
    simp [rcGesture, rcRisingEdge, rcLongPress, rcRelease, ha, hprev, hdp, wsub_self]

/-- The rising-edge block does nothing when the previous combined-button
state was already active. -/
theorem rcRisingEdge_skip (s : Sys) (a : Bool) (n : ℕ)
    (hprev : s.rcPrevButtonActive = true) : rcRisingEdge s a n = s := by
  unfold rcRisingEdge
  rw [if_neg (by simp [hprev])]

/-- Gesture phase while a press is already held (previous combined-button
state active): it either fires the long-press clear (when emergency stop
is active, not yet fired, the press-start stamp is nonzero and at least
2000ms old) or only re-records the button state. -/
theorem rcGesture_held (s : Sys) (a : Bool) (n : ℕ) (ha : a = true)
    (hprev : s.rcPrevButtonActive = true) :
    rcGesture s a n =
      (if s.estop = true ∧ s.rcLongPressFired = false ∧ 0 < s.rcPressStartMs ∧
          2000 ≤ wsub n s.rcPressStartMs then
        { s with estop := false, rcLongPressFired := true, rcPrevButtonActive := a }
      else { s with rcPrevButtonActive := a }) := by
  unfold rcGesture
  rw [rcRisingEdge_skip s a n hprev]
  by_cases hc : s.estop = true ∧ s.rcLongPressFired = false ∧ 0 < s.rcPressStartMs ∧
      2000 ≤ wsub n s.rcPressStartMs <;>
    simp [rcLongPress, rcRelease, ha, hprev, hc]

/-- Full tick on a held press: the button state stays recorded, and the
long-press either clears the emergency stop (one-shot, press-start stamp
preserved) or every gesture field is preserved. -/
theorem rcTick_held (s : Sys) (i : RCIn) (hact : i.anyActive = true)
    (hprev : s.rcPrevButtonActive = true) :
    (rcTick s i).rcPrevButtonActive = true ∧
    ((s.estop = true ∧ s.rcLongPressFired = false ∧ 0 < s.rcPressStartMs ∧
        2000 ≤ wsub i.nowMs s.rcPressStartMs) →
      (rcTick s i).estop = false ∧ (rcTick s i).rcLongPressFired = true ∧
      (rcTick s i).rcPressStartMs = s.rcPressStartMs) ∧
    (¬(s.estop = true ∧ s.rcLongPressFired = false ∧ 0 < s.rcPressStartMs ∧
        2000 ≤ wsub i.nowMs s.rcPressStartMs) →
      (rcTick s i).estop = s.estop ∧ (rcTick s i).rcLongPressFired = s.rcLongPressFired ∧
      (rcTick s i).rcPressStartMs = s.rcPressStartMs) := by
  obtain ⟨he, hp, _, hps, hf⟩ := rcTick_estop_fields s i
  rw [he, hp, hf, hps, rcGesture_held s i.anyActive i.nowMs hact hprev]
  refine ⟨?_, fun hc => ?_, fun hc => ?_⟩
  · split_ifs <;> simp [hact]
  · rw [if_pos hc]
    exact ⟨rfl, rfl, rfl⟩
  · rw [if_neg hc]
    exact ⟨rfl, rfl, rfl⟩

/-- Full tick on a rising edge: button state recorded, fired flag reset,
press-start stamped, and an already-active emergency stop stays active
(the long-press cannot fire on the edge tick). -/
theorem rcTick_rising (s : Sys) (i : RCIn) (hact : i.anyActive = true)
    (hprev : s.rcPrevButtonActive = false) :
    (rcTick s i).rcPrevButtonActive = true ∧
    (rcTick s i).rcLongPressFired = false ∧
    (rcTick s i).rcPressStartMs = i.nowMs ∧
    (s.estop = true → (rcTick s i).estop = true) := by
  obtain ⟨he, hp, _, hps, hf⟩ := rcTick_estop_fields s i
  obtain ⟨hgp, hgf, hgps, hge⟩ := rcGesture_rising s i.anyActive i.nowMs hact hprev
  refine ⟨by rw [hp, hgp]; exact hact, by rw [hf, hgf], by rw [hps, hgps], fun hest => ?_⟩
  rw [he, hge]
  split_ifs <;> simp [hest]

/-- A tick with some button active always records the combined-button
state as active. -/
theorem rcTick_prev_active (s : Sys) (i : RCIn) (hact : i.anyActive = true) :
    (rcTick s i).rcPrevButtonActive = true := by
  by_cases hprev : s.rcPrevButtonActive = true
  · exact (rcTick_held s i hact hprev).1
  · rw [Bool.not_eq_true] at hprev
    exact (rcTick_rising s i hact hprev).1

/-- While a press is held, the held-press invariant is preserved by every
active tick. -/
theorem heldInv_step (t0 : ℕ) (s : Sys) (i : RCIn) (hact : i.anyActive = true)
    (hinv : HeldInv t0 s) : HeldInv t0 (rcTick s i) := by
  obtain ⟨hprev, hdisj⟩ := hinv
  have h := rcTick_held s i hact hprev
  refine ⟨h.1, ?_⟩
  rcases hdisj with hfalse | ⟨he, hf, hps⟩
  · obtain ⟨he', _, _⟩ := h.2.2 (by simp [hfalse])
    exact Or.inl (he'.trans hfalse)
  · by_cases hc : s.estop = true ∧ s.rcLongPressFired = false ∧ 0 < s.rcPressStartMs ∧
        2000 ≤ wsub i.nowMs s.rcPressStartMs
    · exact Or.inl (h.2.1 hc).1
    · obtain ⟨he', hf', hps'⟩ := h.2.2 hc
      exact Or.inr ⟨he'.trans he, hf'.trans hf, hps'.trans hps⟩

/-- Once the emergency stop is cleared mid-hold, the remaining active
ticks of the hold neither clear again nor re-raise it. -/
theorem clearCount_zero (l : List RCIn) : ∀ s : Sys, (∀ i ∈ l, i.anyActive = true) →
    s.rcPrevButtonActive = true → s.estop = false →
    clearCount s l = 0 ∧ (rcRun s l).estop = false := by
  induction l with
  | nil => intro s _ _ he; exact ⟨rfl, he⟩
  | cons i rest ih =>
    intro s hall hprev he
    have hact := hall i (List.mem_cons_self _ _)
    have h := rcTick_held s i hact hprev
    obtain ⟨he', _, _⟩ := h.2.2 (by simp [he])
    have hrest := ih (rcTick s i) (fun j hj => hall j (List.mem_cons_of_mem _ hj)) h.1
      (he'.trans he)
    refine ⟨?_, hrest.2⟩
    show (if s.estop = true ∧ (rcTick s i).estop = false then 1 else 0) +
      clearCount (rcTick s i) rest = 0
    rw [if_neg (by simp [he]), hrest.1]

/-- Along any run of active ticks starting with the combined-button state
already recorded as active, the emergency stop is cleared at most once. -/
theorem clearCount_le_one_held (l : List RCIn) : ∀ s : Sys,
    (∀ i ∈ l, i.anyActive = true) → s.rcPrevButtonActive = true →
    clearCount s l ≤ 1 := by
  induction l with
  | nil => intro s _ _; exact Nat.zero_le 1
  | cons i rest ih =>
    intro s hall hprev
    have hact := hall i (List.mem_cons_self _ _)
    have hall' : ∀ j ∈ rest, RCIn.anyActive j = true :=
      fun j hj => hall j (List.mem_cons_of_mem _ hj)
    have hp' := rcTick_prev_active s i hact
    show (if s.estop = true ∧ (rcTick s i).estop = false then 1 else 0) +
      clearCount (rcTick s i) rest ≤ 1
    by_cases hind : s.estop = true ∧ (rcTick s i).estop = false
    · rw [if_pos hind, (clearCount_zero rest (rcTick s i) hall' hp' hind.2).1]
    · rw [if_neg hind]
      simpa using ih (rcTick s i) hall' hp'

/-- From a held-press invariant state, a run of active ticks whose last
tick is at least 2000ms after the press start ends with the emergency
stop cleared. -/
theorem heldRun_clears (l : List RCIn) : ∀ (s : Sys) (t0 : ℕ), HeldInv t0 s →
    (∀ i ∈ l, i.anyActive = true) → 0 < t0 → t0 < M32 →
    ∀ iN, l.getLast? = some iN → iN.nowMs < M32 → t0 + 2000 ≤ iN.nowMs →
    (rcRun s l).estop = false := by
  induction l with
  | nil => intro s t0 _ _ _ _ iN hlast; simp at hlast
  | cons i rest ih =>
    intro s t0 hinv hall h0 hM iN hlast hNM hfarN
    have hact := hall i (List.mem_cons_self _ _)
    obtain ⟨hprev, hdisj⟩ := hinv
    cases rest with
    | nil =>
      have hiN : i = iN := by simpa using hlast
      subst hiN
      show (rcTick s i).estop = false
      have h := rcTick_held s i hact hprev
      rcases hdisj with hfalse | ⟨he, hf, hps⟩
      · exact ((h.2.2 (by simp [hfalse])).1).trans hfalse
      · have hfar : 2000 ≤ wsub i.nowMs s.rcPressStartMs := by
          rw [hps, wsub_eq_sub (by omega) hNM]
          omega
        exact (h.2.1 ⟨he, hf, by rw [hps]; exact h0, hfar⟩).1
    | cons j rest2 =>
      have hinv' := heldInv_step t0 s i hact ⟨hprev, hdisj⟩
      have hlast' : (j :: rest2).getLast? = some iN := by
        rw [List.getLast?_cons_cons] at hlast
        exact hlast
      exact ih (rcTick s i) t0 hinv'
        (fun k hk => hall k (List.mem_cons_of_mem _ hk)) h0 hM iN hlast' hNM hfarN

/-- A press transition recorded within 800ms of a previously recorded
(nonzero-stamped) transition raises the emergency stop on that tick. -/
theorem remote_double_press (s : Sys) (i : RCIn) (hact : i.anyActive = true)
    (hprev : s.rcPrevButtonActive = false) (hlast : 0 < s.rcLastPressMs)
    (hle : s.rcLastPressMs ≤ i.nowMs) (hwin : i.nowMs - s.rcLastPressMs ≤ 800)
    (hn : i.nowMs < M32) : (rcTick s i).estop = true := by
  rw [(rcTick_estop_fields s i).1,
    (rcGesture_rising s i.anyActive i.nowMs hact hprev).2.2.2,
    if_pos ⟨hlast, by rw [wsub_eq_sub hle hn]; exact hwin⟩]

/-- Claim C9, amended: (double-press) a button press transition within
800ms of the previous such transition — provided that transition was
recorded at a nonzero `millis()` stamp — activates emergency stop;
(long-press) a press starting at a nonzero stamp and held continuously
through ticks reaching at least 2000ms after the press start, while
emergency stop is active, clears the emergency stop; and the clear fires
at most once per continuously held press. -/
theorem C9_remote_gestures :
    (∀ (s : Sys) (i : RCIn), i.anyActive = true → s.rcPrevButtonActive = false →
      0 < s.rcLastPressMs → s.rcLastPressMs ≤ i.nowMs →
      i.nowMs - s.rcLastPressMs ≤ 800 → i.nowMs < M32 →
      (rcTick s i).estop = true) ∧
    (∀ (s : Sys) (i0 : RCIn) (rest : List RCIn),
      s.estop = true → s.rcPrevButtonActive = false → i0.anyActive = true →
      0 < i0.nowMs → i0.nowMs < M32 → (∀ i ∈ rest, i.anyActive = true) →
      ∀ iN, (i0 :: rest).getLast? = some iN → iN.nowMs < M32 →
      i0.nowMs + 2000 ≤ iN.nowMs →
      (rcRun s (i0 :: rest)).estop = false) ∧
    (∀ (s : Sys) (l : List RCIn), (∀ i ∈ l, i.anyActive = true) →
      clearCount s l ≤ 1) := by
  refine ⟨remote_double_press, ?_, ?_⟩
  · intro s i0 rest hest hprev hact h0 hM hall iN hlast hNM hfarN
    cases rest with
    | nil =>
      have hiN : i0 = iN := by simpa using hlast
      subst hiN
      omega
    | cons j rest2 =>
      have h0tick := rcTick_rising s i0 hact hprev
      have hinv : HeldInv i0.nowMs (rcTick s i0) :=
        ⟨h0tick.1, Or.inr ⟨h0tick.2.2.2 hest, h0tick.2.1, h0tick.2.2.1⟩⟩
      have hlast' : (j :: rest2).getLast? = some iN := by
        rw [List.getLast?_cons_cons] at hlast
        exact hlast
      exact heldRun_clears (j :: rest2) (rcTick s i0) i0.nowMs hinv hall h0 hM iN
        hlast' hNM hfarN
  · intro s l hall
    cases l with
    | nil => exact Nat.zero_le 1
    | cons i rest =>
      have hact := hall i (List.mem_cons_self _ _)
      have hall' : ∀ j ∈ rest, RCIn.anyActive j = true :=
        fun j hj => hall j (List.mem_cons_of_mem _ hj)
      have hp' := rcTick_prev_active s i hact
      show (if s.estop = true ∧ (rcTick s i).estop = false then 1 else 0) +
        clearCount (rcTick s i) rest ≤ 1
      by_cases hind : s.estop = true ∧ (rcTick s i).estop = false
      · rw [if_pos hind, (clearCount_zero rest (rcTick s i) hall' hp' hind.2).1]
      · rw [if_neg hind]
        simpa using clearCount_le_one_held rest (rcTick s i) hall' hp'

/-- Claim C9 as stated is false on the code: with a first press transition
at `millis() = 0`, a second press transition 500ms later (well inside the
800ms window of the previous transition) does not activate the emergency
stop, because the recorded previous-press stamp 0 coincides with the
"no previous press" sentinel (`last_press_ms_ > 0`). -/
theorem C9_counterexample :
    (rcRun
      ⟨false, false, -1, 0, false, 0, ⟨false, false, false, .stopped⟩,
        ⟨false, false, false, .stopped⟩, false, ⟨false, -1, 1/5, false⟩, false, false,
        false, 0, 0, false, false⟩
      [⟨false, false, true, false, 0⟩, ⟨false, false, false, false, 100⟩]).rcPrevButtonActive
        = false ∧
    (rcRun
      ⟨false, false, -1, 0, false, 0, ⟨false, false, false, .stopped⟩,
        ⟨false, false, false, .stopped⟩, false, ⟨false, -1, 1/5, false⟩, false, false,
        false, 0, 0, false, false⟩
      [⟨false, false, true, false, 0⟩, ⟨false, false, false, false, 100⟩]).rcLastPressMs = 0 ∧
    (500 : ℕ) - 0 ≤ 800 ∧
    (rcRun
      ⟨false, false, -1, 0, false, 0, ⟨false, false, false, .stopped⟩,
        ⟨false, false, false, .stopped⟩, false, ⟨false, -1, 1/5, false⟩, false, false,
        false, 0, 0, false, false⟩
      [⟨false, false, true, false, 0⟩, ⟨false, false, false, false, 100⟩,
        ⟨false, false, true, false, 500⟩]).estop = false := by
  refine ⟨by decide, by decide, by decide, by decide⟩

theorem C9_remote_gestures_witness :
    (rcTick
      ⟨false, false, -1, 0, false, 0, ⟨false, false, false, .stopped⟩,
        ⟨false, false, false, .stopped⟩, false, ⟨false, -1, 1/5, false⟩, false, false,
        false, 400, 0, false, false⟩
      ⟨false, false, true, false, 900⟩).estop = true ∧
    (rcRun
      ⟨true, false, -1, 0, false, 0, ⟨false, false, false, .stopped⟩,
        ⟨false, false, false, .stopped⟩, false, ⟨false, -1, 1/5, false⟩, false, false,
        false, 0, 0, false, false⟩
      [⟨false, false, true, false, 100⟩, ⟨false, false, true, false, 2500⟩]).estop = false ∧
    clearCount
      ⟨true, false, -1, 0, false, 0, ⟨false, false, false, .stopped⟩,
        ⟨false, false, false, .stopped⟩, false, ⟨false, -1, 1/5, false⟩, false, false,
        false, 0, 0, false, false⟩
      [⟨false, false, true, false, 100⟩, ⟨false, false, true, false, 2500⟩,
        ⟨false, false, true, false, 3000⟩] ≤ 1 :=
  ⟨C9_remote_gestures.1 _ _ (by decide) (by decide) (by decide) (by decide) (by decide)
      (by decide),
   C9_remote_gestures.2.1 _ ⟨false, false, true, false, 100⟩
      [⟨false, false, true, false, 2500⟩] (by decide) (by decide) (by decide) (by decide)
      (by decide) (by decide) ⟨false, false, true, false, 2500⟩ (by decide) (by decide)
      (by decide),
   C9_remote_gestures.2.2 _ _ (by decide)⟩

/-- Motion phase with emergency stop clear and up or down held: the tick
reports the remote as controlling, raises the deadman flag, and drives
the winch in the held direction (up subject to the home interlock). -/
theorem rcMotion_deadman (s : Sys) (u d : Bool) (hest : s.estop = false)
    (hud : (u || d) = true) :
    ((rcMotion s u d).1).estop = false ∧ (rcMotion s u d).2 = true ∧
    ((rcMotion s u d).1).rcRemoteActive = true ∧
    (u = true → s.homeActive = false → ((rcMotion s u d).1).winch.isMovingUp = true) ∧
    (u = false → d = true → ((rcMotion s u d).1).winch.isMovingDown = true) := by
  unfold rcMotion
  rw [if_neg (by simp [hest])]
  simp only [AutomaticModeController.setEnabled]
  refine ⟨?_, ?_, ?_, fun hu hh => ?_, fun hu hd => ?_⟩ <;>
    split_ifs <;>
      simp_all [AnchorWinchController.moveUp, AnchorWinchController.moveDown,
        AnchorWinchController.stop, Motor.moveUp, Motor.moveDown, Motor.stop,
        Motor.isMovingUp, Motor.isMovingDown]

/-- Claim C10: on the very tick on which a long-press clears the
emergency stop, a still-held up (resp. down) button immediately drives
the winch up (resp. down), the deadman flag is raised and the tick
reports the remote as controlling. -/
theorem C10_longpress_hands_over_control (s : Sys) (u d f3 f4 : Bool) (now : ℕ)
    (hud : (u || d) = true) (hest : s.estop = true)
    (hprev : s.rcPrevButtonActive = true) (hfired : s.rcLongPressFired = false)
    (hps : 0 < s.rcPressStartMs) (hfar : s.rcPressStartMs + 2000 ≤ now)
    (hnow : now < M32) :
    ((processInputs s u d f3 f4 now).1).estop = false ∧
    (processInputs s u d f3 f4 now).2 = true ∧
    ((processInputs s u d f3 f4 now).1).rcRemoteActive = true ∧
    (u = true → s.homeActive = false →
      ((processInputs s u d f3 f4 now).1).winch.isMovingUp = true) ∧
    (u = false → d = true →
      ((processInputs s u d f3 f4 now).1).winch.isMovingDown = true) := by
  have hC : s.estop = true ∧ s.rcLongPressFired = false ∧ 0 < s.rcPressStartMs ∧
      2000 ≤ wsub now s.rcPressStartMs :=
    ⟨hest, hfired, hps, by rw [wsub_eq_sub (by omega) hnow]; omega⟩
  have hany : (u || d || f3 || f4) = true := by
    cases u <;> cases d <;> simp_all
  have hg := rcGesture_held s (u || d || f3 || f4) now hany hprev
  rw [if_pos hC] at hg
  simp only [processInputs]
  rw [hg]
  have hm := rcMotion_deadman { s with estop := false, rcLongPressFired := true, rcPrevButtonActive := (u || d || f3 || f4) } u d rfl hud
  exact ⟨hm.1, hm.2.1, hm.2.2.1, fun hu hh => hm.2.2.2.1 hu hh,
    fun hu hd => hm.2.2.2.2 hu hd⟩

theorem C10_longpress_hands_over_control_witness :
    ((processInputs
      ⟨true, false, -1, 0, false, 0, ⟨false, false, false, .stopped⟩,
        ⟨false, false, false, .stopped⟩, false, ⟨false, -1, 1/5, false⟩, false, false,
        true, 100, 500, false, false⟩
      true false false false 2600).1).estop = false ∧
    ((processInputs
      ⟨true, false, -1, 0, false, 0, ⟨false, false, false, .stopped⟩,
        ⟨false, false, false, .stopped⟩, false, ⟨false, -1, 1/5, false⟩, false, false,
        true, 100, 500, false, false⟩
      true false false false 2600).1).winch.isMovingUp = true := by
  have h := C10_longpress_hands_over_control
    ⟨true, false, -1, 0, false, 0, ⟨false, false, false, .stopped⟩,
      ⟨false, false, false, .stopped⟩, false, ⟨false, -1, 1/5, false⟩, false, false,
      true, 100, 500, false, false⟩
    true false false false 2600 (by decide) (by decide) (by decide) (by decide)
    (by decide) (by decide) (by decide)
  exact ⟨h.1, h.2.2.2.1 rfl rfl⟩

end BowCtrl
